import Mathlib

/-!
# DockFlow chat WebSocket tester

A shallow embedding of `src/main/resources/static/websocket-tester.js`
(class `ChatWebSocketTester`) together with the two JavaScript built-ins it
calls (`JSON.stringify` on `{content: content}` and `JSON.parse`) and a model
of the STOMP transport library it drives.

JavaScript strings are sequences of UTF-16 code units.  They are modelled as
lists of natural numbers; a real string only holds units below 65536, and all
results below hold for every list.

The parser of `JSON.parse` recurses on a bound for the nesting depth; the
bound it is given is shown to be enough (`parseValue_fuel`).
-/

namespace DockFlow

/-! ## Strings -/

/-- A JavaScript string: its UTF-16 code units. -/
abbrev JSString := List Nat

/-- UTF-16 encoding of one Unicode scalar value. -/
def utf16 (c : Char) : List Nat :=
  if c.toNat < 65536 then [c.toNat]
  else [55296 + (c.toNat - 65536) / 1024, 56320 + (c.toNat - 65536) % 1024]

/-- The JavaScript string denoted by a source-text literal. -/
def lit (s : String) : JSString := s.toList.flatMap utf16

/-! ## JSON values -/

mutual
/-- The values `JSON.parse` can return.  A number keeps its lexeme: its
numeric value is never inspected by the tester. -/
inductive JSON where
  | null
  | bool (b : Bool)
  | num (lexeme : JSString)
  | str (s : JSString)
  | arr (xs : JSONList)
  | obj (fs : JSONFields)
  deriving DecidableEq
/-- The elements of a JSON array, in order. -/
inductive JSONList where
  | nil
  | cons (x : JSON) (xs : JSONList)
  deriving DecidableEq
/-- The members of a JSON object, in source order. -/
inductive JSONFields where
  | nil
  | cons (k : JSString) (v : JSON) (fs : JSONFields)
  deriving DecidableEq
end

/-- Own-property lookup on a parsed object: of duplicate keys the last one
wins, as `JSON.parse` overwrites earlier members. -/
def JSONFields.get : JSONFields → JSString → Option JSON
  | .nil, _ => none
  | .cons k v fs, key =>
    match fs.get key with
    | some w => some w
    | none => if k = key then some v else none

/-! ## `JSON.stringify` of `{content: content}` for a string `content` -/

/-- Lower-case hexadecimal digit, as a code unit. -/
def hexDigit (d : Nat) : Nat := if d < 10 then 48 + d else 87 + d

/-- The escape `\uXXXX` of a code unit. -/
def unicodeEscape (c : Nat) : List Nat :=
  [92, 117, hexDigit (c / 4096 % 16), hexDigit (c / 256 % 16),
    hexDigit (c / 16 % 16), hexDigit (c % 16)]

def isLeadingSurrogate (c : Nat) : Bool := decide (55296 ≤ c ∧ c ≤ 56319)

def isTrailingSurrogate (c : Nat) : Bool := decide (56320 ≤ c ∧ c ≤ 57343)

/-- One code unit that is not half of a surrogate pair, as `QuoteJSONString`
writes it.  Backspace, tab, line feed, form feed, carriage return, the quote
and the backslash have two-character escapes; other control characters and
lone surrogates are written `\uXXXX`; everything else is copied. -/
def quoteUnit (c : Nat) : List Nat :=
  if c = 8 then [92, 98]
  else if c = 9 then [92, 116]
  else if c = 10 then [92, 110]
  else if c = 12 then [92, 102]
  else if c = 13 then [92, 114]
  else if c = 34 then [92, 34]
  else if c = 92 then [92, 92]
  else if c < 32 then unicodeEscape c
  else if isLeadingSurrogate c || isTrailingSurrogate c then unicodeEscape c
  else [c]

/-- The body of `QuoteJSONString`: the characters between the two quotes.
The string is read by code points, so a leading surrogate followed by a
trailing one is copied as a pair. -/
def quoteChars : List Nat → List Nat
  | [] => []
  | [c] => quoteUnit c
  | c :: d :: rest =>
    if isLeadingSurrogate c && isTrailingSurrogate d then c :: d :: quoteChars rest
    else quoteUnit c ++ quoteChars (d :: rest)

/-- `QuoteJSONString`. -/
def quoteJSONString (s : JSString) : JSString := 34 :: (quoteChars s ++ [34])

/-- `JSON.stringify({ content: content })` for a string `content`
(`sendMessage`, lines 86-88). -/
def stringifyContent (content : JSString) : JSString :=
  lit "\x7b\"content\":" ++ quoteJSONString content ++ lit "\x7d"

/-! ## `JSON.parse` -/

def isWhitespace (c : Nat) : Bool := decide (c = 9 ∨ c = 10 ∨ c = 13 ∨ c = 32)

def isDigit (c : Nat) : Bool := decide (48 ≤ c ∧ c ≤ 57)

def skipWhitespace : List Nat → List Nat
  | [] => []
  | c :: rest => if isWhitespace c then skipWhitespace rest else c :: rest

/-- Value of a hexadecimal digit of either case. -/
def hexValue (c : Nat) : Option Nat :=
  if 48 ≤ c ∧ c ≤ 57 then some (c - 48)
  else if 97 ≤ c ∧ c ≤ 102 then some (c - 87)
  else if 65 ≤ c ∧ c ≤ 70 then some (c - 55)
  else none

/-- The code unit written by four hexadecimal digits. -/
def hex4 (a b c d : Nat) : Option Nat :=
  match hexValue a, hexValue b, hexValue c, hexValue d with
  | some x, some y, some z, some w => some (x * 4096 + y * 256 + z * 16 + w)
  | _, _, _, _ => none

/-- The character a two-character escape stands for. -/
def simpleEscape (e : Nat) : Option Nat :=
  if e = 34 then some 34
  else if e = 47 then some 47
  else if e = 92 then some 92
  else if e = 98 then some 8
  else if e = 102 then some 12
  else if e = 110 then some 10
  else if e = 114 then some 13
  else if e = 116 then some 9
  else none

/-- Put a decoded code unit in front of the rest of a string being read. -/
def consChar (c : Nat) : Option (JSString × List Nat) → Option (JSString × List Nat)
  | some (s, rest) => some (c :: s, rest)
  | none => none

/-- Reads a JSON string after its opening quote: the decoded string and the
input after the closing quote.  A raw control character, a bad escape and a
missing closing quote are errors. -/
def parseStringChars : List Nat → Option (JSString × List Nat)
  | [] => none
  | c :: rest =>
    if c = 34 then some ([], rest)
    else if c = 92 then
      match rest with
      | [] => none
      | e :: rest1 =>
        if e = 117 then
          match rest1 with
          | a :: b :: c1 :: d :: rest2 =>
            match hex4 a b c1 d with
            | some v => consChar v (parseStringChars rest2)
            | none => none
          | _ => none
        else
          match simpleEscape e with
          | some v => consChar v (parseStringChars rest1)
          | none => none
    else if c < 32 then none
    else consChar c (parseStringChars rest)

/-- Splits off the longest prefix of decimal digits. -/
def takeDigits : List Nat → List Nat × List Nat
  | [] => ([], [])
  | c :: rest =>
    if isDigit c then ((takeDigits rest).1.cons c, (takeDigits rest).2)
    else ([], c :: rest)

/-- The integer part of a number: `0`, or a non-zero digit and more digits. -/
def parseInt (inp : List Nat) : Option (List Nat × List Nat) :=
  match inp with
  | [] => none
  | c :: rest =>
    if c = 48 then some ([48], rest)
    else if isDigit c then some (c :: (takeDigits rest).1, (takeDigits rest).2)
    else none

/-- An optional fraction: a dot and at least one digit. -/
def parseFrac (inp : List Nat) : Option (List Nat × List Nat) :=
  match inp with
  | c :: rest =>
    if c = 46 then
      match takeDigits rest with
      | ([], _) => none
      | (ds, rest1) => some (46 :: ds, rest1)
    else some ([], inp)
  | [] => some ([], inp)

/-- An optional exponent: `e` or `E`, an optional sign, at least one digit. -/
def parseExp (inp : List Nat) : Option (List Nat × List Nat) :=
  match inp with
  | c :: rest =>
    if c = 101 ∨ c = 69 then
      match rest with
      | s :: rest1 =>
        if s = 43 ∨ s = 45 then
          match takeDigits rest1 with
          | ([], _) => none
          | (ds, rest2) => some (c :: s :: ds, rest2)
        else
          match takeDigits rest with
          | ([], _) => none
          | (ds, rest2) => some (c :: ds, rest2)
      | [] => none
    else some ([], inp)
  | [] => some ([], inp)

/-- A JSON number: its lexeme and the input after it. -/
def parseNumber (inp : List Nat) : Option (JSString × List Nat) :=
  let (sign, inp1) :=
    match inp with
    | c :: rest => if c = 45 then ([45], rest) else ([], inp)
    | [] => ([], inp)
  match parseInt inp1 with
  | none => none
  | some (i, inp2) =>
    match parseFrac inp2 with
    | none => none
    | some (f, inp3) =>
      match parseExp inp3 with
      | none => none
      | some (e, inp4) => some (sign ++ i ++ f ++ e, inp4)

/-- Drops a fixed word from the front of the input. -/
def expectWord : List Nat → List Nat → Option (List Nat)
  | [], inp => some inp
  | _ :: _, [] => none
  | w :: ws, c :: rest => if w = c then expectWord ws rest else none

/-- The elements of an array after `[` (the array is known not to be empty),
up to and including the closing `]`.  `pv` reads one value. -/
def parseElements (pv : List Nat → Option (JSON × List Nat)) :
    Nat → List Nat → Option (JSONList × List Nat)
  | 0, _ => none
  | n + 1, inp =>
    match pv inp with
    | none => none
    | some (v, rest) =>
      match skipWhitespace rest with
      | [] => none
      | c :: rest1 =>
        if c = 44 then
          match parseElements pv n rest1 with
          | some (vs, rest2) => some (.cons v vs, rest2)
          | none => none
        else if c = 93 then some (.cons v .nil, rest1)
        else none

/-- The members of an object after `{` (the object is known not to be empty),
up to and including the closing `}`.  `pv` reads one value. -/
def parseMembers (pv : List Nat → Option (JSON × List Nat)) :
    Nat → List Nat → Option (JSONFields × List Nat)
  | 0, _ => none
  | n + 1, inp =>
    match skipWhitespace inp with
    | [] => none
    | q :: rest =>
      if q = 34 then
        match parseStringChars rest with
        | none => none
        | some (k, rest1) =>
          match skipWhitespace rest1 with
          | [] => none
          | colon :: rest2 =>
            if colon = 58 then
              match pv rest2 with
              | none => none
              | some (v, rest3) =>
                match skipWhitespace rest3 with
                | [] => none
                | c :: rest4 =>
                  if c = 44 then
                    match parseMembers pv n rest4 with
                    | some (fs, rest5) => some (.cons k v fs, rest5)
                    | none => none
                  else if c = 125 then some (.cons k v .nil, rest4)
                  else none
            else none
      else none

/-- Reads one JSON value, skipping the white space in front of it.  The
first argument bounds the nesting depth. -/
def parseValue : Nat → List Nat → Option (JSON × List Nat)
  | 0, _ => none
  | fuel + 1, inp =>
    match skipWhitespace inp with
    | [] => none
    | c :: rest =>
      if c = 34 then
        match parseStringChars rest with
        | some (s, rest1) => some (.str s, rest1)
        | none => none
      else if c = 123 then
        match skipWhitespace rest with
        | [] => none
        | d :: rest1 =>
          if d = 125 then some (.obj .nil, rest1)
          else
            match parseMembers (parseValue fuel) rest.length rest with
            | some (fs, rest2) => some (.obj fs, rest2)
            | none => none
      else if c = 91 then
        match skipWhitespace rest with
        | [] => none
        | d :: rest1 =>
          if d = 93 then some (.arr .nil, rest1)
          else
            match parseElements (parseValue fuel) rest.length rest with
            | some (vs, rest2) => some (.arr vs, rest2)
            | none => none
      else if c = 116 then
        match expectWord (lit "rue") rest with
        | some rest1 => some (.bool true, rest1)
        | none => none
      else if c = 102 then
        match expectWord (lit "alse") rest with
        | some rest1 => some (.bool false, rest1)
        | none => none
      else if c = 110 then
        match expectWord (lit "ull") rest with
        | some rest1 => some (.null, rest1)
        | none => none
      else
        match parseNumber (c :: rest) with
        | some (lexeme, rest1) => some (.num lexeme, rest1)
        | none => none

/-- `JSON.parse(text)`: `none` stands for the `SyntaxError` it throws.  The
text is one value with optional white space around it. -/
def JSON_parse (text : JSString) : Option JSON :=
  match parseValue (text.length + 1) text with
  | some (v, rest) => if skipWhitespace rest = [] then some v else none
  | none => none

/-! ## Console and exceptions -/

inductive Level where
  | log
  | error
  deriving DecidableEq

/-- One `console.log` or `console.error` call.  `text` is the literal text of
the call and `args` are the values passed after it or interpolated into it
(`none` is `undefined`); how the browser renders them is not modelled. -/
structure ConsoleEntry where
  level : Level
  text : String
  args : List (Option JSON)
  deriving DecidableEq

/-- The exceptions the tester's code can raise. -/
inductive JSError where
  | SyntaxError
  | TypeError
  deriving DecidableEq

/-! ## The message handler (lines 56-62) -/

mutual
/-- Whether converting a parsed value to a string (in a template literal, or
to a primitive in `new Date(v)`) throws a `TypeError`: an object with an own
`toString` member has no callable conversion left, and an array joins the
conversions of its elements. -/
def JSON.conversionThrows : JSON → Bool
  | .obj fs => (fs.get (lit "toString")).isSome
  | .arr xs => xs.conversionThrows
  | _ => false
/-- Whether the conversion of some element throws. -/
def JSONList.conversionThrows : JSONList → Bool
  | .nil => false
  | .cons x xs => x.conversionThrows || xs.conversionThrows
end

/-- Conversion of a property value that may be `undefined`. -/
def valueThrows : Option JSON → Bool
  | none => false
  | some v => v.conversionThrows

/-- The read `data.key` on a value other than `null`: an own member of an
object, `undefined` on anything else. -/
def readProperty : JSON → JSString → Option JSON
  | .obj fs, key => fs.get key
  | _, _ => none

/-- What one run of a callback did: its console output and the exception it
raised, if any. -/
structure Run where
  out : List ConsoleEntry
  raised : Option JSError
  deriving DecidableEq

def receivedLine (data : JSON) : ConsoleEntry := ⟨.log, "📬 Message received:", [some data]⟩

def fromLine (senderName : Option JSON) : ConsoleEntry := ⟨.log, "  From: ", [senderName]⟩

def contentLine (content : Option JSON) : ConsoleEntry := ⟨.log, "  Content: ", [content]⟩

def timeLine (timestamp : Option JSON) : ConsoleEntry := ⟨.log, "  Time: ", [timestamp]⟩

/-- The callback `subscribe` registers (lines 56-62), run on `message.body`.
There is no `try`: an exception of `JSON.parse`, of the property read on
`null` or of a conversion leaves the callback. -/
def messageHandler (body : JSString) : Run :=
  match JSON_parse body with
  | none => ⟨[], some .SyntaxError⟩
  | some data =>
    if data = .null then ⟨[receivedLine data], some .TypeError⟩
    else if valueThrows (readProperty data (lit "senderName")) then
      ⟨[receivedLine data], some .TypeError⟩
    else if valueThrows (readProperty data (lit "content")) then
      ⟨[receivedLine data, fromLine (readProperty data (lit "senderName"))], some .TypeError⟩
    else if valueThrows (readProperty data (lit "timestamp")) then
      ⟨[receivedLine data, fromLine (readProperty data (lit "senderName")),
        contentLine (readProperty data (lit "content"))], some .TypeError⟩
    else
      ⟨[receivedLine data, fromLine (readProperty data (lit "senderName")),
        contentLine (readProperty data (lit "content")),
        timeLine (readProperty data (lit "timestamp"))], none⟩

/-! ## The STOMP transport -/

/-- The options `connect` passes to `new StompJs.Client` (lines 15-20). -/
structure StompConfig where
  brokerURL : JSString
  reconnectDelay : Nat
  heartbeatIncoming : Nat
  heartbeatOutgoing : Nat
  deriving DecidableEq

/-- Connection status, as in the data model of the specification. -/
inductive Status where
  | Disconnected
  | Connecting
  | Connected
  | Failed
  deriving DecidableEq

/-- Modelled from the spec: a client object of the external STOMP library
(section 6, transport collaborator).  `callbacks` tells whether the tester's
`onConnect`, `onStompError` and `onDisconnect` functions are installed. -/
structure StompClient where
  config : StompConfig
  status : Status
  callbacks : Bool
  deriving DecidableEq

/-- Modelled from the spec: a subscription held by the transport.  `live`
turns false when its handle is unsubscribed. -/
structure StompSubscription where
  client : Nat
  destination : JSString
  live : Bool
  deriving DecidableEq

/-- The calls the tester makes on the transport library. -/
inductive TransportCall where
  | construct (client : Nat) (config : StompConfig)
  | activate (client : Nat)
  | deactivate (client : Nat)
  | subscribe (client : Nat) (destination : JSString) (handle : Nat)
  | publish (client : Nat) (destination : JSString) (body : JSString)
  | unsubscribe (handle : Nat)
  deriving DecidableEq

/-- Everything outside the tester object: the transport's clients and
subscriptions, the calls made on the transport so far, the console, and the
exceptions that left a callback. -/
structure World where
  clients : List StompClient
  subscriptions : List StompSubscription
  calls : List TransportCall
  console : List ConsoleEntry
  uncaught : List JSError
  deriving DecidableEq

def updateAt {α : Type} (f : α → α) : Nat → List α → List α
  | _, [] => []
  | 0, x :: xs => f x :: xs
  | n + 1, x :: xs => x :: updateAt f n xs

namespace World

def empty : World := ⟨[], [], [], [], []⟩

def print (w : World) (e : ConsoleEntry) : World := { w with console := w.console ++ [e] }

/-- Modelled from the spec: `new StompJs.Client(config)` makes a client that
is not yet active. -/
def newClient (w : World) (config : StompConfig) : Nat × World :=
  (w.clients.length,
    { w with
      clients := w.clients ++ [⟨config, .Disconnected, false⟩]
      calls := w.calls ++ [.construct w.clients.length config] })

/-- The three assignments of lines 22-33. -/
def setCallbacks (w : World) (id : Nat) : World :=
  { w with clients := updateAt (fun c => { c with callbacks := true }) id w.clients }

/-- Modelled from the spec: `client.activate()` starts connecting. -/
def activate (w : World) (id : Nat) : World :=
  { w with
    clients := updateAt (fun c => { c with status := .Connecting }) id w.clients
    calls := w.calls ++ [.activate id] }

/-- Modelled from the spec: `client.deactivate()` tears the connection down. -/
def deactivate (w : World) (id : Nat) : World :=
  { w with
    clients := updateAt (fun c => { c with status := .Disconnected }) id w.clients
    calls := w.calls ++ [.deactivate id] }

/-- Status of a client (`none` for an id that names no client). -/
def status (w : World) (id : Nat) : Option Status := (w.clients.get? id).map fun c => c.status

/-- Modelled from the spec: the getter `client.connected`. -/
def connected (w : World) (id : Nat) : Bool := decide (w.status id = some .Connected)

/-- Modelled from the spec: `client.subscribe(destination, handler)` registers
a subscription and returns its handle. -/
def clientSubscribe (w : World) (id : Nat) (destination : JSString) : Nat × World :=
  (w.subscriptions.length,
    { w with
      subscriptions := w.subscriptions ++ [⟨id, destination, true⟩]
      calls := w.calls ++ [.subscribe id destination w.subscriptions.length] })

/-- Modelled from the spec: `handle.unsubscribe()` cancels the subscription. -/
def unsubscribeHandle (w : World) (handle : Nat) : World :=
  { w with
    subscriptions := updateAt (fun s => { s with live := false }) handle w.subscriptions
    calls := w.calls ++ [.unsubscribe handle] }

/-- Modelled from the spec: `client.publish({destination, body})`. -/
def publish (w : World) (id : Nat) (destination body : JSString) : World :=
  { w with calls := w.calls ++ [.publish id destination body] }

/-- Whether a subscription is still registered with the transport. -/
def isLive (w : World) (handle : Nat) : Bool :=
  match w.subscriptions.get? handle with
  | some s => s.live
  | none => false

/-- The handles of the live subscriptions. -/
def liveHandles (w : World) : List Nat :=
  (List.range w.subscriptions.length).filter w.isLive

/-- Modelled from the spec: the handles whose handler the transport calls for
a frame on `destination`: the live subscriptions for that destination on a
connected client. -/
def receivers (w : World) (destination : JSString) : List Nat :=
  (List.range w.subscriptions.length).filter fun h =>
    match w.subscriptions.get? h with
    | some s => s.live && decide (s.destination = destination) && w.connected s.client
    | none => false

/-- One call of the message handler by the transport. -/
def runHandler (w : World) (body : JSString) : World :=
  { w with
    console := w.console ++ (messageHandler body).out
    uncaught := w.uncaught ++ (messageHandler body).raised.toList }

/-- Modelled from the spec: a frame arrives on `destination`; every receiver's
handler runs on its body, in the order of registration. -/
def deliver (w : World) (destination body : JSString) : World :=
  (w.receivers destination).foldl (fun w1 _ => w1.runHandler body) w

/-- Modelled from the spec: the handshake of a connecting client succeeds and
the transport calls `onConnect` (lines 22-25). -/
def handshake (w : World) (id : Nat) : World :=
  match w.clients.get? id with
  | some c =>
    if c.status = .Connecting then
      let w1 : World :=
        { w with clients := updateAt (fun c => { c with status := .Connected }) id w.clients }
      if c.callbacks then
        (w1.print ⟨.log, "✅ Connected to WebSocket!", []⟩).print
          ⟨.log, "Готовы к отправке и получению сообщений", []⟩
      else w1
    else w
  | none => w

end World

/-! ## The tester (lines 4-93) -/

/-- A channel id as the examples pass it: a string, or a non-negative integer
number (below 2^53, so that it is exact). -/
inductive ChannelId where
  | text (s : JSString)
  | index (n : Fin 9007199254740992)
  deriving DecidableEq

/-- The string a template literal makes of a channel id. -/
def ChannelId.toJSString : ChannelId → JSString
  | .text s => s
  | .index n => (Nat.toDigits 10 n.val).flatMap utf16

/-- The fields of a `ChatWebSocketTester`; `none` is `null`.  A client and a
subscription are named by their index in the transport. -/
structure ChatWebSocketTester where
  url : JSString
  client : Option Nat
  subscription : Option Nat
  deriving DecidableEq

namespace ChatWebSocketTester

/-- The constructor (lines 5-9); `none` is a call without argument. -/
def new (url : Option JSString) : ChatWebSocketTester :=
  ⟨url.getD (lit "ws://localhost:8080/ws/chat"), none, none⟩

/-- The method `connect` (lines 12-36). -/
def connect (t : ChatWebSocketTester) (w : World) : ChatWebSocketTester × World :=
  let w1 := w.print ⟨.log, "🔌 Connecting to:", [some (.str t.url)]⟩
  let made := w1.newClient ⟨t.url, 5000, 4000, 4000⟩
  ({ t with client := some made.1 }, (made.2.setCallbacks made.1).activate made.1)

/-- The method `disconnect` (lines 39-44). -/
def disconnect (t : ChatWebSocketTester) (w : World) : ChatWebSocketTester × World :=
  match t.client with
  | some id => (t, (w.deactivate id).print ⟨.log, "Disconnected", []⟩)
  | none => (t, w)

/-- The test `this.client?.connected` of lines 48 and 77. -/
def clientConnected (t : ChatWebSocketTester) (w : World) : Bool :=
  match t.client with
  | some id => w.connected id
  | none => false

/-- The destination of line 53. -/
def subscribeDestination (channelId : ChannelId) : JSString :=
  lit "/topic/channel/" ++ channelId.toJSString

/-- The destination of line 85. -/
def sendDestination (channelId : ChannelId) : JSString :=
  lit "/app/chat/" ++ channelId.toJSString

/-- The method `subscribe` (lines 47-65). -/
def subscribe (channelId : ChannelId) (t : ChatWebSocketTester) (w : World) :
    ChatWebSocketTester × World :=
  match t.client with
  | some id =>
    if w.connected id then
      let destination := subscribeDestination channelId
      let w1 := w.print ⟨.log, "📨 Subscribing to ", [some (.str destination)]⟩
      let made := w1.clientSubscribe id destination
      ({ t with subscription := some made.1 }, made.2.print ⟨.log, "✅ Subscribed!", []⟩)
    else (t, w.print ⟨.error, "Not connected. Call connect() first", []⟩)
  | none => (t, w.print ⟨.error, "Not connected. Call connect() first", []⟩)

/-- The method `unsubscribe` (lines 68-73). -/
def unsubscribe (t : ChatWebSocketTester) (w : World) : ChatWebSocketTester × World :=
  match t.subscription with
  | some handle => (t, (w.unsubscribeHandle handle).print ⟨.log, "Unsubscribed", []⟩)
  | none => (t, w)

/-- The method `sendMessage` (lines 76-92), for a string `content`. -/
def sendMessage (channelId : ChannelId) (content : JSString) (t : ChatWebSocketTester)
    (w : World) : ChatWebSocketTester × World :=
  match t.client with
  | some id =>
    if w.connected id then
      let w1 := w.print
        ⟨.log, "📤 Sending message to channel ", [some (.str channelId.toJSString)]⟩
      let w2 := w1.publish id (sendDestination channelId) (stringifyContent content)
      (t, w2.print ⟨.log, "✅ Message sent!", []⟩)
    else (t, w.print ⟨.error, "Not connected", []⟩)
  | none => (t, w.print ⟨.error, "Not connected", []⟩)

end ChatWebSocketTester

/-! ## Runs -/

/-- What can happen to a tester: a method called on it, or an event of the
transport (a handshake that succeeds, a frame that arrives). -/
inductive Op where
  | connect
  | disconnect
  | subscribe (channelId : ChannelId)
  | unsubscribe
  | sendMessage (channelId : ChannelId) (content : JSString)
  | handshake (id : Nat)
  | deliver (destination : JSString) (body : JSString)
  deriving DecidableEq

/-- The effect of one step on the tester and its world. -/
def step : Op → ChatWebSocketTester × World → ChatWebSocketTester × World
  | .connect, s => ChatWebSocketTester.connect s.1 s.2
  | .disconnect, s => ChatWebSocketTester.disconnect s.1 s.2
  | .subscribe c, s => ChatWebSocketTester.subscribe c s.1 s.2
  | .unsubscribe, s => ChatWebSocketTester.unsubscribe s.1 s.2
  | .sendMessage c content, s => ChatWebSocketTester.sendMessage c content s.1 s.2
  | .handshake id, s => (s.1, s.2.handshake id)
  | .deliver destination body, s => (s.1, s.2.deliver destination body)

/-- The effect of a sequence of steps, first to last. -/
def runOps : List Op → ChatWebSocketTester × World → ChatWebSocketTester × World
  | [], s => s
  | op :: ops, s => runOps ops (step op s)

/-- Whether some `subscribe` of the sequence passes the test of line 48, and
so registers a subscription. -/
def subscribeSucceeded : List Op → ChatWebSocketTester × World → Bool
  | [], _ => false
  | op :: ops, s =>
    (match op with
      | .subscribe _ => s.1.clientConnected s.2
      | _ => false) || subscribeSucceeded ops (step op s)

/-! ## Sample runs -/

/-- A tester made without argument in an empty world, after `connect()`: its
client is connecting. -/
def connectingState : ChatWebSocketTester × World :=
  runOps [.connect] (ChatWebSocketTester.new none, World.empty)

/-- The same tester once the handshake of its client has succeeded. -/
def connectedState : ChatWebSocketTester × World :=
  runOps [.connect, .handshake 0] (ChatWebSocketTester.new none, World.empty)

/-- The same tester after `subscribe(1)`, as in the usage example of the
source (lines 98-107). -/
def subscribedState : ChatWebSocketTester × World :=
  runOps [.connect, .handshake 0, .subscribe (.index 1)]
    (ChatWebSocketTester.new none, World.empty)

end DockFlow

/-! ## Lemmas on `JSON.parse` after `JSON.stringify` -/

namespace DockFlow

open ChatWebSocketTester


theorem hexValue_hexDigit (d : Nat) (h : d < 16) : hexValue (hexDigit d) = some d := by
  interval_cases d <;> decide

theorem hex4_unicodeEscape (c : Nat) (h : c < 65536) :
    hex4 (hexDigit (c / 4096 % 16)) (hexDigit (c / 256 % 16)) (hexDigit (c / 16 % 16))
      (hexDigit (c % 16)) = some c := by
  have h1 := hexValue_hexDigit (c / 4096 % 16) (Nat.mod_lt _ (by decide))
  have h2 := hexValue_hexDigit (c / 256 % 16) (Nat.mod_lt _ (by decide))
  have h3 := hexValue_hexDigit (c / 16 % 16) (Nat.mod_lt _ (by decide))
  have h4 := hexValue_hexDigit (c % 16) (Nat.mod_lt _ (by decide))
  simp only [hex4, h1, h2, h3, h4, Option.some.injEq]
  omega

theorem parseStringChars_quote (rest : List Nat) :
    parseStringChars (34 :: rest) = some ([], rest) := by
  rw [parseStringChars.eq_def]; simp

theorem parseStringChars_raw (c : Nat) (rest : List Nat) (h1 : c ≠ 34) (h2 : c ≠ 92)
    (h3 : ¬ c < 32) : parseStringChars (c :: rest) = consChar c (parseStringChars rest) := by
  rw [parseStringChars.eq_def]; simp [h1, h2, h3]

theorem parseStringChars_simple (e v : Nat) (rest : List Nat) (h1 : e ≠ 117)
    (h2 : simpleEscape e = some v) :
    parseStringChars (92 :: e :: rest) = consChar v (parseStringChars rest) := by
  rw [parseStringChars.eq_def]; simp [h1, h2]

theorem parseStringChars_hex (a b c d v : Nat) (rest : List Nat) (h : hex4 a b c d = some v) :
    parseStringChars (92 :: 117 :: a :: b :: c :: d :: rest)
      = consChar v (parseStringChars rest) := by
  rw [parseStringChars.eq_def]; simp [h]

theorem parseStringChars_unicodeEscape (c : Nat) (h : c < 65536) (rest : List Nat) :
    parseStringChars (unicodeEscape c ++ rest) = consChar c (parseStringChars rest) := by
  simp only [unicodeEscape, List.cons_append, List.nil_append]
  exact parseStringChars_hex _ _ _ _ c rest (hex4_unicodeEscape c h)

theorem parseStringChars_quoteUnit (c : Nat) (rest : List Nat) :
    parseStringChars (quoteUnit c ++ rest) = consChar c (parseStringChars rest) := by
  unfold quoteUnit
  split_ifs with h1 h2 h3 h4 h5 h6 h7 h8 h9
  · subst h1; exact parseStringChars_simple 98 8 rest (by decide) (by decide)
  · subst h2; exact parseStringChars_simple 116 9 rest (by decide) (by decide)
  · subst h3; exact parseStringChars_simple 110 10 rest (by decide) (by decide)
  · subst h4; exact parseStringChars_simple 102 12 rest (by decide) (by decide)
  · subst h5; exact parseStringChars_simple 114 13 rest (by decide) (by decide)
  · subst h6; exact parseStringChars_simple 34 34 rest (by decide) (by decide)
  · subst h7; exact parseStringChars_simple 92 92 rest (by decide) (by decide)
  · exact parseStringChars_unicodeEscape c (by omega) rest
  · refine parseStringChars_unicodeEscape c ?_ rest
    simp [isLeadingSurrogate, isTrailingSurrogate] at h9
    omega
  · exact parseStringChars_raw c rest h6 h7 h8

theorem parseStringChars_pair (c d : Nat) (hc : isLeadingSurrogate c = true)
    (hd : isTrailingSurrogate d = true) (rest : List Nat) :
    parseStringChars (c :: d :: rest) = consChar c (consChar d (parseStringChars rest)) := by
  simp only [isLeadingSurrogate, isTrailingSurrogate, decide_eq_true_eq] at hc hd
  rw [parseStringChars_raw c _ (by omega) (by omega) (by omega),
    parseStringChars_raw d _ (by omega) (by omega) (by omega)]

theorem parseStringChars_quoteChars (t : JSString) (tail : List Nat) :
    parseStringChars (quoteChars t ++ 34 :: tail) = some (t, tail) := by
  induction t using quoteChars.induct with
  | case1 => simp [quoteChars, parseStringChars_quote]
  | case2 c =>
    simp only [quoteChars]
    rw [parseStringChars_quoteUnit, parseStringChars_quote]
    rfl
  | case3 c d rest h ih =>
    simp only [quoteChars, h, if_true]
    simp only [Bool.and_eq_true] at h
    rw [List.cons_append, List.cons_append, parseStringChars_pair c d h.1 h.2, ih]
    rfl
  | case4 c d rest h ih =>
    simp only [quoteChars, h]
    simp only [Bool.false_eq_true, if_false, List.append_assoc]
    rw [parseStringChars_quoteUnit, ih]
    rfl

theorem lit_open : lit "\x7b\"content\":" = [123, 34, 99, 111, 110, 116, 101, 110, 116, 34, 58] := by
  decide

theorem lit_close : lit "\x7d" = [125] := by decide

theorem lit_content : lit "content" = [99, 111, 110, 116, 101, 110, 116] := by decide

theorem parseValue_string (fuel : Nat) (t : JSString) (tail : List Nat) :
    parseValue (fuel + 1) (34 :: (quoteChars t ++ 34 :: tail)) = some (.str t, tail) := by
  simp [parseValue, skipWhitespace, isWhitespace, parseStringChars_quoteChars]

theorem JSON_parse_stringifyContent (t : JSString) :
    JSON_parse (stringifyContent t) = some (.obj (.cons (lit "content") (.str t) .nil)) := by
  have hk : parseStringChars (99 :: 111 :: 110 :: 116 :: 101 :: 110 :: 116 :: 34 :: 58 :: 34 ::
      (quoteChars t ++ [34, 125])) = some (lit "content", 58 :: 34 :: (quoteChars t ++ [34, 125])) := by
    simp [parseStringChars_raw, parseStringChars_quote, consChar, lit_content]
  simp only [JSON_parse, stringifyContent, quoteJSONString, lit_open, lit_close, List.cons_append,
    List.nil_append, List.append_assoc, List.length_cons]
  rw [parseValue]
  simp [skipWhitespace, isWhitespace, parseMembers, hk, parseValue_string]

/-! ## The parser never runs out of fuel -/

theorem skipWhitespace_length (l : List Nat) : (skipWhitespace l).length ≤ l.length := by
  induction l with
  | nil => simp [skipWhitespace]
  | cons c rest ih =>
    simp only [skipWhitespace]
    split
    · simp only [List.length_cons]; omega
    · exact Nat.le_refl _

theorem skipWhitespace_cons_length (l rest : List Nat) (c : Nat)
    (h : skipWhitespace l = c :: rest) : rest.length < l.length := by
  have := skipWhitespace_length l
  rw [h] at this
  simpa using this

theorem consChar_some (c : Nat) (o : Option (JSString × List Nat)) (s : JSString)
    (r : List Nat) (h : consChar c o = some (s, r)) : ∃ s1, o = some (s1, r) := by
  cases o with
  | none => cases h
  | some p =>
    obtain ⟨s1, r1⟩ := p
    simp only [consChar, Option.some.injEq, Prod.mk.injEq] at h
    exact ⟨s1, by rw [h.2]⟩

theorem parseStringChars_length (l : List Nat) :
    ∀ (s : JSString) (r : List Nat), parseStringChars l = some (s, r) → r.length < l.length := by
  induction l using parseStringChars.induct with
  | case1 => intro s r h; simp [parseStringChars] at h
  | case2 rest =>
    intro s r h
    rw [parseStringChars_quote] at h
    simp only [Option.some.injEq, Prod.mk.injEq] at h
    simp [← h.2]
  | case3 => intro s r h; rw [parseStringChars.eq_def] at h; simp at h
  | case4 a b c1 d rest2 v hv _ ih =>
    intro s r h
    rw [parseStringChars_hex a b c1 d v rest2 hv] at h
    obtain ⟨s1, h1⟩ := consChar_some _ _ _ _ h
    have := ih s1 r h1
    simp only [List.length_cons]; omega
  | case5 a b c1 d rest2 hv _ =>
    intro s r h; rw [parseStringChars.eq_def] at h; simp [hv] at h
  | case6 rest hne _ =>
    intro s r h
    rw [parseStringChars.eq_def] at h
    simp only [if_neg (show ¬ (92 : Nat) = 34 by decide), if_true] at h
    cases h
  | case7 c rest hc v hv _ ih =>
    intro s r h
    rw [parseStringChars_simple c v rest hc hv] at h
    obtain ⟨s1, h1⟩ := consChar_some _ _ _ _ h
    have := ih s1 r h1
    simp only [List.length_cons]; omega
  | case8 c rest hc hv _ =>
    intro s r h; rw [parseStringChars.eq_def] at h; simp [hc, hv] at h
  | case9 c rest h1 h2 h3 =>
    intro s r h; rw [parseStringChars.eq_def] at h; simp [h1, h2, h3] at h
  | case10 c rest h1 h2 h3 ih =>
    intro s r h
    rw [parseStringChars_raw c rest h1 h2 h3] at h
    obtain ⟨s1, h4⟩ := consChar_some _ _ _ _ h
    have := ih s1 r h4
    simp only [List.length_cons]; omega

theorem takeDigits_length (l : List Nat) : (takeDigits l).2.length ≤ l.length := by
  induction l with
  | nil => simp [takeDigits]
  | cons c rest ih =>
    simp only [takeDigits]
    split
    · simp only [List.length_cons]; omega
    · exact Nat.le_refl _

theorem parseInt_length (l i r : List Nat) (h : parseInt l = some (i, r)) :
    r.length < l.length := by
  cases l with
  | nil => simp [parseInt] at h
  | cons c rest =>
    simp only [parseInt] at h
    split_ifs at h
    · simp only [Option.some.injEq, Prod.mk.injEq] at h
      simp [← h.2]
    · simp only [Option.some.injEq, Prod.mk.injEq] at h
      have := takeDigits_length rest
      rw [h.2] at this
      simp only [List.length_cons]; omega

theorem parseFrac_length (l f r : List Nat) (h : parseFrac l = some (f, r)) :
    r.length ≤ l.length := by
  cases l with
  | nil =>
    simp only [parseFrac, Option.some.injEq, Prod.mk.injEq] at h
    simp [← h.2]
  | cons c rest =>
    simp only [parseFrac] at h
    split_ifs at h
    · have := takeDigits_length rest
      split at h
      · cases h
      · rename_i ds rest1 _ heq
        simp only [Option.some.injEq, Prod.mk.injEq] at h
        rw [heq] at this
        simp only [List.length_cons, ← h.2]
        simp only at this
        omega
    · simp only [Option.some.injEq, Prod.mk.injEq] at h
      simp [← h.2]

theorem parseExp_length (l e r : List Nat) (h : parseExp l = some (e, r)) :
    r.length ≤ l.length := by
  cases l with
  | nil =>
    simp only [parseExp, Option.some.injEq, Prod.mk.injEq] at h
    simp [← h.2]
  | cons c rest =>
    simp only [parseExp] at h
    split_ifs at h
    · cases rest with
      | nil => cases h
      | cons s rest1 =>
        simp only at h
        split_ifs at h
        · have := takeDigits_length rest1
          split at h
          · cases h
          · rename_i ds rest2 _ heq
            simp only [Option.some.injEq, Prod.mk.injEq] at h
            rw [heq] at this
            simp only [List.length_cons, ← h.2]
            simp only at this
            omega
        · have := takeDigits_length (s :: rest1)
          split at h
          · cases h
          · rename_i ds rest2 _ heq
            simp only [Option.some.injEq, Prod.mk.injEq] at h
            rw [heq] at this
            simp only [List.length_cons, ← h.2]
            simp only [List.length_cons] at this
            omega
    · simp only [Option.some.injEq, Prod.mk.injEq] at h
      simp [← h.2]

theorem parseNumber_length (l lexeme r : List Nat) (h : parseNumber l = some (lexeme, r)) :
    r.length < l.length := by
  simp only [parseNumber] at h
  split at h
  · cases h
  · rename_i i inp2 hi
    split at h
    · cases h
    · rename_i f inp3 hf
      split at h
      · cases h
      · rename_i e inp4 he
        simp only [Option.some.injEq, Prod.mk.injEq] at h
        have h1 := parseInt_length _ _ _ hi
        have h2 := parseFrac_length _ _ _ hf
        have h3 := parseExp_length _ _ _ he
        rw [h.2] at h3
        have h0 : (match l with
            | c :: rest => if c = 45 then ([45], rest) else ([], l)
            | [] => ([], l)).2.length ≤ l.length := by
          split
          · split
            · simp
            · exact Nat.le_refl _
          · exact Nat.le_refl _
        omega

theorem expectWord_length (w l r : List Nat) (h : expectWord w l = some r) :
    r.length ≤ l.length := by
  induction w generalizing l with
  | nil =>
    simp only [expectWord, Option.some.injEq] at h
    rw [h]
  | cons x xs ih =>
    cases l with
    | nil => simp [expectWord] at h
    | cons c rest =>
      simp only [expectWord] at h
      split_ifs at h
      have := ih rest h
      simp only [List.length_cons]; omega

theorem parseElements_length (pv : List Nat → Option (JSON × List Nat)) (hpv : ∀ inp v r, pv inp = some (v, r) → r.length < inp.length)
    (n : Nat) : ∀ (inp : List Nat) (vs : JSONList) (r : List Nat),
      parseElements pv n inp = some (vs, r) → r.length < inp.length := by
  induction n with
  | zero => intro inp vs r h; simp [parseElements] at h
  | succ n ih =>
    intro inp vs r h
    simp only [parseElements] at h
    split at h
    · cases h
    · rename_i v rest hv
      have h1 := hpv _ _ _ hv
      split at h
      · cases h
      · rename_i c rest1 hsk
        have h2 := skipWhitespace_cons_length _ _ _ hsk
        split_ifs at h
        · split at h
          · rename_i vs1 rest2 hrec
            simp only [Option.some.injEq, Prod.mk.injEq] at h
            have := ih _ _ _ hrec
            rw [h.2] at this
            omega
          · cases h
        · simp only [Option.some.injEq, Prod.mk.injEq] at h
          rw [h.2] at h2
          omega

theorem parseMembers_length (pv : List Nat → Option (JSON × List Nat)) (hpv : ∀ inp v r, pv inp = some (v, r) → r.length < inp.length)
    (n : Nat) : ∀ (inp : List Nat) (fs : JSONFields) (r : List Nat),
      parseMembers pv n inp = some (fs, r) → r.length < inp.length := by
  induction n with
  | zero => intro inp fs r h; simp [parseMembers] at h
  | succ n ih =>
    intro inp fs r h
    simp only [parseMembers] at h
    split at h
    · cases h
    · rename_i q rest hq
      have h0 := skipWhitespace_cons_length _ _ _ hq
      split_ifs at h
      split at h
      · cases h
      · rename_i k rest1 hk
        have h1 := parseStringChars_length _ _ _ hk
        split at h
        · cases h
        · rename_i colon rest2 hcolon
          have h2 := skipWhitespace_cons_length _ _ _ hcolon
          split_ifs at h
          split at h
          · cases h
          · rename_i v rest3 hv
            have h3 := hpv _ _ _ hv
            split at h
            · cases h
            · rename_i c rest4 hc
              have h4 := skipWhitespace_cons_length _ _ _ hc
              split_ifs at h
              · split at h
                · rename_i fs1 rest5 hrec
                  simp only [Option.some.injEq, Prod.mk.injEq] at h
                  have := ih _ _ _ hrec
                  rw [h.2] at this
                  omega
                · cases h
              · simp only [Option.some.injEq, Prod.mk.injEq] at h
                rw [h.2] at h4
                omega

theorem parseValue_length (fuel : Nat) :
    ∀ inp v r, parseValue fuel inp = some (v, r) → r.length < inp.length := by
  induction fuel with
  | zero => intro inp v r h; simp [parseValue] at h
  | succ fuel ih =>
    intro inp v r h
    rw [parseValue] at h
    split at h
    · cases h
    · rename_i c rest hc
      have h0 := skipWhitespace_cons_length _ _ _ hc
      split_ifs at h
      · split at h
        · rename_i s rest1 hs
          simp only [Option.some.injEq, Prod.mk.injEq] at h
          have := parseStringChars_length _ _ _ hs
          rw [h.2] at this; omega
        · cases h
      · split at h
        · cases h
        · rename_i d rest1 hd
          have h1 := skipWhitespace_cons_length _ _ _ hd
          split_ifs at h
          · simp only [Option.some.injEq, Prod.mk.injEq] at h
            rw [h.2] at h1; omega
          · split at h
            · rename_i fs rest2 hm
              simp only [Option.some.injEq, Prod.mk.injEq] at h
              have := parseMembers_length _ ih _ _ _ _ hm
              rw [h.2] at this; omega
            · cases h
      · split at h
        · cases h
        · rename_i d rest1 hd
          have h1 := skipWhitespace_cons_length _ _ _ hd
          split_ifs at h
          · simp only [Option.some.injEq, Prod.mk.injEq] at h
            rw [h.2] at h1; omega
          · split at h
            · rename_i vs rest2 hm
              simp only [Option.some.injEq, Prod.mk.injEq] at h
              have := parseElements_length _ ih _ _ _ _ hm
              rw [h.2] at this; omega
            · cases h
      · split at h
        · rename_i rest1 hw
          simp only [Option.some.injEq, Prod.mk.injEq] at h
          have := expectWord_length _ _ _ hw
          rw [h.2] at this; omega
        · cases h
      · split at h
        · rename_i rest1 hw
          simp only [Option.some.injEq, Prod.mk.injEq] at h
          have := expectWord_length _ _ _ hw
          rw [h.2] at this; omega
        · cases h
      · split at h
        · rename_i rest1 hw
          simp only [Option.some.injEq, Prod.mk.injEq] at h
          have := expectWord_length _ _ _ hw
          rw [h.2] at this; omega
        · cases h
      · split at h
        · rename_i lexeme rest1 hn
          simp only [Option.some.injEq, Prod.mk.injEq] at h
          have := parseNumber_length _ _ _ hn
          rw [h.2] at this
          simp only [List.length_cons] at this
          omega
        · cases h

theorem parseElements_congr (pv1 pv2 : List Nat → Option (JSON × List Nat)) (k : Nat)
    (hpv : ∀ inp v r, pv1 inp = some (v, r) → r.length < inp.length)
    (hag : ∀ inp, inp.length < k → pv1 inp = pv2 inp) (n : Nat) :
    ∀ inp : List Nat, inp.length < k → parseElements pv1 n inp = parseElements pv2 n inp := by
  induction n with
  | zero => intro inp _; rfl
  | succ n ih =>
    intro inp hk
    simp only [parseElements]
    rw [← hag inp hk]
    cases hv : pv1 inp with
    | none => rfl
    | some p =>
      obtain ⟨v, rest⟩ := p
      have h1 := hpv _ _ _ hv
      simp only
      cases hsk : skipWhitespace rest with
      | nil => rfl
      | cons c rest1 =>
        have h2 := skipWhitespace_cons_length _ _ _ hsk
        simp only
        rw [ih rest1 (by omega)]

theorem parseMembers_congr (pv1 pv2 : List Nat → Option (JSON × List Nat)) (k : Nat)
    (hpv : ∀ inp v r, pv1 inp = some (v, r) → r.length < inp.length)
    (hag : ∀ inp, inp.length < k → pv1 inp = pv2 inp) (n : Nat) :
    ∀ inp : List Nat, inp.length < k → parseMembers pv1 n inp = parseMembers pv2 n inp := by
  induction n with
  | zero => intro inp _; rfl
  | succ n ih =>
    intro inp hk
    simp only [parseMembers]
    cases hq : skipWhitespace inp with
    | nil => rfl
    | cons q rest =>
      have h0 := skipWhitespace_cons_length _ _ _ hq
      simp only
      split_ifs
      · cases hs : parseStringChars rest with
        | none => rfl
        | some p =>
          obtain ⟨key, rest1⟩ := p
          have h1 := parseStringChars_length _ _ _ hs
          simp only
          cases hcolon : skipWhitespace rest1 with
          | nil => rfl
          | cons colon rest2 =>
            have h2 := skipWhitespace_cons_length _ _ _ hcolon
            simp only
            split_ifs
            · rw [← hag rest2 (by omega)]
              cases hv : pv1 rest2 with
              | none => rfl
              | some p =>
                obtain ⟨v, rest3⟩ := p
                have h3 := hpv _ _ _ hv
                simp only
                cases hc : skipWhitespace rest3 with
                | nil => rfl
                | cons c rest4 =>
                  have h4 := skipWhitespace_cons_length _ _ _ hc
                  simp only
                  rw [ih rest4 (by omega)]
            · rfl
      · rfl

theorem parseElements_fuel (pv : List Nat → Option (JSON × List Nat))
    (hpv : ∀ inp v r, pv inp = some (v, r) → r.length < inp.length) (n : Nat) :
    ∀ inp : List Nat, inp.length ≤ n → parseElements pv n inp = parseElements pv (n + 1) inp := by
  induction n with
  | zero =>
    intro inp hk
    have hnil : inp = [] := List.length_eq_zero.mp (by omega)
    subst hnil
    simp only [parseElements]
    cases hv : pv [] with
    | none => rfl
    | some p =>
      have := hpv _ _ _ hv
      simp at this
  | succ n ih =>
    intro inp hk
    rw [parseElements, parseElements]
    cases hv : pv inp with
    | none => rfl
    | some p =>
      obtain ⟨v, rest⟩ := p
      have h1 := hpv _ _ _ hv
      simp only
      cases hsk : skipWhitespace rest with
      | nil => rfl
      | cons c rest1 =>
        have h2 := skipWhitespace_cons_length _ _ _ hsk
        simp only
        rw [← ih rest1 (by omega)]

theorem parseMembers_fuel (pv : List Nat → Option (JSON × List Nat))
    (hpv : ∀ inp v r, pv inp = some (v, r) → r.length < inp.length) (n : Nat) :
    ∀ inp : List Nat, inp.length ≤ n → parseMembers pv n inp = parseMembers pv (n + 1) inp := by
  induction n with
  | zero =>
    intro inp hk
    have hnil : inp = [] := List.length_eq_zero.mp (by omega)
    subst hnil
    simp [parseMembers, skipWhitespace]
  | succ n ih =>
    intro inp hk
    rw [parseMembers, parseMembers]
    cases hq : skipWhitespace inp with
    | nil => rfl
    | cons q rest =>
      have h0 := skipWhitespace_cons_length _ _ _ hq
      simp only
      split_ifs
      · cases hs : parseStringChars rest with
        | none => rfl
        | some p =>
          obtain ⟨key, rest1⟩ := p
          have h1 := parseStringChars_length _ _ _ hs
          simp only
          cases hcolon : skipWhitespace rest1 with
          | nil => rfl
          | cons colon rest2 =>
            have h2 := skipWhitespace_cons_length _ _ _ hcolon
            simp only
            split_ifs
            · cases hv : pv rest2 with
              | none => rfl
              | some p =>
                obtain ⟨v, rest3⟩ := p
                have h3 := hpv _ _ _ hv
                simp only
                cases hc : skipWhitespace rest3 with
                | nil => rfl
                | cons c rest4 =>
                  have h4 := skipWhitespace_cons_length _ _ _ hc
                  simp only
                  rw [← ih rest4 (by omega)]
            · rfl
      · rfl

theorem parseValue_succ (fuel : Nat) :
    ∀ inp : List Nat, inp.length < fuel → parseValue fuel inp = parseValue (fuel + 1) inp := by
  induction fuel with
  | zero => intro inp h; omega
  | succ g ih =>
    intro inp hk
    conv_lhs => rw [parseValue]
    conv_rhs => rw [parseValue]
    cases hc : skipWhitespace inp with
    | nil => rfl
    | cons c rest =>
      have h0 := skipWhitespace_cons_length _ _ _ hc
      simp only
      split_ifs
      · rfl
      · cases hd : skipWhitespace rest with
        | nil => rfl
        | cons d rest1 =>
          simp only
          split_ifs
          · rfl
          · rw [parseMembers_congr (parseValue g) (parseValue (g + 1)) g (parseValue_length g) ih
              rest.length rest (by omega)]
      · cases hd : skipWhitespace rest with
        | nil => rfl
        | cons d rest1 =>
          simp only
          split_ifs
          · rfl
          · rw [parseElements_congr (parseValue g) (parseValue (g + 1)) g (parseValue_length g) ih
              rest.length rest (by omega)]
      · rfl
      · rfl
      · rfl
      · rfl

/-- The fuel of `JSON_parse` is enough: more fuel gives the same result, so
`none` always stands for a syntax error and never for an exhausted bound. -/
theorem parseValue_fuel (extra : Nat) (text : List Nat) :
    parseValue (text.length + 1 + extra) text = parseValue (text.length + 1) text := by
  induction extra with
  | zero => rfl
  | succ d ih =>
    rw [← ih]
    exact (parseValue_succ (text.length + 1 + d) text (by omega)).symm

/-- The bound on the number of elements is enough as well. -/
theorem parseElements_bound (pv : List Nat → Option (JSON × List Nat))
    (hpv : ∀ inp v r, pv inp = some (v, r) → r.length < inp.length) (extra : Nat)
    (inp : List Nat) :
    parseElements pv (inp.length + extra) inp = parseElements pv inp.length inp := by
  induction extra with
  | zero => rfl
  | succ d ih =>
    rw [← ih]
    exact (parseElements_fuel pv hpv (inp.length + d) inp (by omega)).symm

/-- The bound on the number of members is enough as well. -/
theorem parseMembers_bound (pv : List Nat → Option (JSON × List Nat))
    (hpv : ∀ inp v r, pv inp = some (v, r) → r.length < inp.length) (extra : Nat)
    (inp : List Nat) :
    parseMembers pv (inp.length + extra) inp = parseMembers pv inp.length inp := by
  induction extra with
  | zero => rfl
  | succ d ih =>
    rw [← ih]
    exact (parseMembers_fuel pv hpv (inp.length + d) inp (by omega)).symm

/-! ## Lemmas on the transport -/

theorem get?_updateAt_same {α : Type} (f : α → α) (n : Nat) (l : List α) :
    (updateAt f n l).get? n = (l.get? n).map f := by
  induction l generalizing n with
  | nil => simp [updateAt]
  | cons x xs ih =>
    cases n with
    | zero => simp [updateAt]
    | succ n => simpa [updateAt] using ih n

theorem get?_updateAt_other {α : Type} (f : α → α) (n i : Nat) (l : List α) (h : i ≠ n) :
    (updateAt f n l).get? i = l.get? i := by
  induction l generalizing n i with
  | nil => simp [updateAt]
  | cons x xs ih =>
    cases n with
    | zero =>
      cases i with
      | zero => exact absurd rfl h
      | succ i => simp [updateAt]
    | succ n =>
      cases i with
      | zero => simp [updateAt]
      | succ i => simpa [updateAt] using ih n i (by omega)

theorem updateAt_idem {α : Type} (f : α → α) (hf : ∀ x, f (f x) = f x) (n : Nat) (l : List α) :
    updateAt f n (updateAt f n l) = updateAt f n l := by
  induction l generalizing n with
  | nil => simp [updateAt]
  | cons x xs ih =>
    cases n with
    | zero => simp [updateAt, hf]
    | succ n => simp [updateAt, ih n]

theorem lit_topic :
    lit "/topic/channel/" = [47, 116, 111, 112, 105, 99, 47, 99, 104, 97, 110, 110, 101, 108, 47] := by
  decide

theorem lit_app : lit "/app/chat/" = [47, 97, 112, 112, 47, 99, 104, 97, 116, 47] := by decide


theorem subscribe_connected (c : ChannelId) (t : ChatWebSocketTester) (w : World) (id : Nat)
    (hc : t.client = some id) (hconn : w.connected id = true) :
    subscribe c t w =
      ({ t with subscription := some w.subscriptions.length },
        { w with
          subscriptions := w.subscriptions ++ [⟨id, subscribeDestination c, true⟩]
          calls := w.calls ++ [.subscribe id (subscribeDestination c) w.subscriptions.length]
          console := w.console ++
            [⟨.log, "📨 Subscribing to ", [some (.str (subscribeDestination c))]⟩,
              ⟨.log, "✅ Subscribed!", []⟩] }) := by
  simp [subscribe, hc, hconn, World.print, World.clientSubscribe]

theorem tester_subscription_none (ops : List Op) (s : ChatWebSocketTester × World)
    (h0 : s.1.subscription = none) (h : subscribeSucceeded ops s = false) :
    (runOps ops s).1.subscription = none := by
  induction ops generalizing s with
  | nil => simpa [runOps] using h0
  | cons op ops ih =>
    simp only [subscribeSucceeded, Bool.or_eq_false_iff] at h
    refine ih (step op s) ?_ h.2
    cases op with
    | connect => simpa [step, connect] using h0
    | disconnect =>
      simp only [step, disconnect]
      split <;> exact h0
    | subscribe c =>
      have hn : s.1.clientConnected s.2 = false := h.1
      simp only [step, subscribe]
      simp only [clientConnected] at hn
      split
      · rename_i id hid
        simp only [hid] at hn
        simpa [hn] using h0
      · exact h0
    | unsubscribe =>
      simp only [step, unsubscribe]
      split <;> exact h0
    | sendMessage c content =>
      simp only [step, sendMessage]
      split
      · split <;> exact h0
      · exact h0
    | handshake id => exact h0
    | deliver d b => exact h0

theorem foldl_runHandler (body : JSString) (l : List Nat) (w : World) :
    l.foldl (fun w1 _ => w1.runHandler body) w =
      { w with
        console := w.console ++ l.flatMap fun _ => (messageHandler body).out
        uncaught := w.uncaught ++ l.flatMap fun _ => (messageHandler body).raised.toList } := by
  induction l generalizing w with
  | nil => simp
  | cons x xs ih =>
    rw [List.foldl_cons, ih]
    simp [World.runHandler, List.append_assoc]

theorem deliver_eq (w : World) (destination body : JSString) :
    w.deliver destination body =
      { w with
        console := w.console ++
          (w.receivers destination).flatMap fun _ => (messageHandler body).out
        uncaught := w.uncaught ++
          (w.receivers destination).flatMap fun _ => (messageHandler body).raised.toList } := by
  simp [World.deliver, foldl_runHandler]

theorem status_some_lt (w : World) (id : Nat) (st : Status) (h : w.status id = some st) :
    id < w.clients.length := by
  by_contra hlt
  have hnone : w.clients.get? id = none := by
    rw [List.get?_eq_getElem?]
    exact List.getElem?_eq_none (by omega)
  rw [World.status, hnone] at h
  cases h

theorem get?_append_pair_fst {α : Type} (l : List α) (a b : α) :
    (l ++ [a, b]).get? l.length = some a := by
  induction l with
  | nil => rfl
  | cons x xs ih => simpa using ih

theorem get?_append_pair_snd {α : Type} (l : List α) (a b : α) :
    (l ++ [a, b]).get? (l.length + 1) = some b := by
  induction l with
  | nil => rfl
  | cons x xs ih => simpa using ih

/-- C1: on a tester whose client is absent or reports `connected == false`,
`subscribe` and `sendMessage` report the not-connected error on the error
console and do nothing else: no transport call is made, no subscription is
produced, and the tester's fields are unchanged. -/
theorem not_connected_reports_and_does_nothing (t : ChatWebSocketTester) (w : World)
    (channelId : ChannelId) (content : JSString)
    (h : t.client = none ∨ ∃ id, t.client = some id ∧ w.connected id = false) :
    subscribe channelId t w =
        (t, { w with
          console := w.console ++ [⟨.error, "Not connected. Call connect() first", []⟩] })
      ∧ sendMessage channelId content t w =
        (t, { w with console := w.console ++ [⟨.error, "Not connected", []⟩] })
      ∧ (subscribe channelId t w).2.calls = w.calls
      ∧ (sendMessage channelId content t w).2.calls = w.calls
      ∧ (subscribe channelId t w).2.subscriptions = w.subscriptions
      ∧ (subscribe channelId t w).1.subscription = t.subscription := by
  rcases h with h | ⟨id, h, hn⟩
  · simp [subscribe, sendMessage, h, World.print]
  · simp [subscribe, sendMessage, h, hn, World.print]

/-- C1 at two inputs: a tester that never connected, and one whose client is
still connecting. -/
theorem not_connected_reports_and_does_nothing_witness :
    ((ChatWebSocketTester.new none).client = none
      ∧ (subscribe (.index 1) (ChatWebSocketTester.new none) World.empty).2.calls = []
      ∧ (sendMessage (.index 1) (lit "hi") (ChatWebSocketTester.new none) World.empty).2.calls = [])
    ∧ (connectingState.2.connected 0 = false
      ∧ (subscribe (.index 1) connectingState.1 connectingState.2).2.calls
          = connectingState.2.calls
      ∧ (subscribe (.index 1) connectingState.1 connectingState.2).1.subscription = none) :=
  ⟨⟨rfl,
      (not_connected_reports_and_does_nothing (ChatWebSocketTester.new none) World.empty
        (.index 1) (lit "hi") (Or.inl rfl)).2.2.1,
      (not_connected_reports_and_does_nothing (ChatWebSocketTester.new none) World.empty
        (.index 1) (lit "hi") (Or.inl rfl)).2.2.2.1⟩,
    ⟨by decide,
      (not_connected_reports_and_does_nothing connectingState.1 connectingState.2
        (.index 1) (lit "hi") (Or.inr ⟨0, by decide, by decide⟩)).2.2.1,
      (not_connected_reports_and_does_nothing connectingState.1 connectingState.2
        (.index 1) (lit "hi") (Or.inr ⟨0, by decide, by decide⟩)).2.2.2.2.2⟩⟩

/-- C3: `subscribe` uses the destination `/topic/channel/` followed by the
string form of the channel id, `sendMessage` uses `/app/chat/` followed by it,
and no subscribe destination equals a send destination, whatever the ids
(empty, or with a `/` in them). -/
theorem destinations_never_collide :
    (∀ (c : ChannelId) (content : JSString) (t : ChatWebSocketTester) (w : World) (id : Nat),
        t.client = some id → w.connected id = true →
        (subscribe c t w).2.calls = w.calls ++
            [.subscribe id (lit "/topic/channel/" ++ c.toJSString) w.subscriptions.length]
          ∧ (sendMessage c content t w).2.calls = w.calls ++
            [.publish id (lit "/app/chat/" ++ c.toJSString) (stringifyContent content)])
      ∧ (∀ c1 c2 : ChannelId, subscribeDestination c1 ≠ sendDestination c2)
      ∧ (∀ s1 s2 : JSString,
          subscribeDestination (.text s1) = lit "/topic/channel/" ++ s1
            ∧ sendDestination (.text s2) = lit "/app/chat/" ++ s2
            ∧ lit "/topic/channel/" ++ s1 ≠ lit "/app/chat/" ++ s2) := by
  refine ⟨?_, ?_, ?_⟩
  · intro c content t w id hc hconn
    simp [subscribe, sendMessage, hc, hconn, World.print, World.clientSubscribe, World.publish,
      subscribeDestination, sendDestination]
  · intro c1 c2
    simp [subscribeDestination, sendDestination, lit_topic, lit_app]
  · intro s1 s2
    simp [subscribeDestination, sendDestination, ChannelId.toJSString, lit_topic, lit_app]

/-- C3 on the connected sample tester, for channel 1 and for the id `a/b`. -/
theorem destinations_never_collide_witness :
    (subscribe (.index 1) connectedState.1 connectedState.2).2.calls
        = connectedState.2.calls ++ [.subscribe 0 (lit "/topic/channel/1") 0]
      ∧ (sendMessage (.text (lit "a/b")) (lit "hi") connectedState.1 connectedState.2).2.calls
        = connectedState.2.calls ++
          [.publish 0 (lit "/app/chat/a/b") (stringifyContent (lit "hi"))] :=
  ⟨(destinations_never_collide.1 (.index 1) (lit "hi") connectedState.1 connectedState.2 0
      (by decide) (by decide)).1,
    (destinations_never_collide.1 (.text (lit "a/b")) (lit "hi") connectedState.1
      connectedState.2 0 (by decide) (by decide)).2⟩

/-- C4: on a connected tester `sendMessage` makes exactly one transport call,
a publish to `/app/chat/` + id whose body is the JSON text of the object with
the one member `content`; the tester's fields and the transport's clients and
subscriptions are unchanged. -/
theorem sendMessage_publishes_once (c : ChannelId) (content : JSString)
    (t : ChatWebSocketTester) (w : World) (id : Nat)
    (hc : t.client = some id) (hconn : w.connected id = true) :
    sendMessage c content t w =
      (t, { w with
          calls := w.calls ++
            [.publish id (lit "/app/chat/" ++ c.toJSString)
              (lit "\x7b\"content\":" ++ quoteJSONString content ++ lit "\x7d")]
          console := w.console ++
            [⟨.log, "📤 Sending message to channel ", [some (.str c.toJSString)]⟩,
              ⟨.log, "✅ Message sent!", []⟩] }) := by
  simp [sendMessage, hc, hconn, World.print, World.publish, sendDestination, stringifyContent]

/-- C4 on the connected sample tester: channel 1, content `ping`. -/
theorem sendMessage_publishes_once_witness :
    connectedState.1.client = some 0 ∧ connectedState.2.connected 0 = true
      ∧ (sendMessage (.index 1) (lit "ping") connectedState.1 connectedState.2).2.calls
        = connectedState.2.calls ++
          [.publish 0 (lit "/app/chat/1") (lit "\x7b\"content\":\"ping\"\x7d")]
      ∧ (sendMessage (.index 1) (lit "ping") connectedState.1 connectedState.2).1
        = connectedState.1 :=
  ⟨by decide, by decide,
    (congrArg (fun s => s.2.calls) (sendMessage_publishes_once (.index 1) (lit "ping")
      connectedState.1 connectedState.2 0 (by decide) (by decide))).trans (by decide),
    congrArg (fun s => s.1) (sendMessage_publishes_once (.index 1) (lit "ping")
      connectedState.1 connectedState.2 0 (by decide) (by decide))⟩

/-- C6: on a tester made by the constructor on which no `subscribe` has
succeeded, whatever else was called and whatever the transport did,
`unsubscribe()` changes nothing: the fields, the transport's calls, the
console and the uncaught exceptions are as before. -/
theorem unsubscribe_before_subscribe_is_noop (url : Option JSString) (w : World)
    (ops : List Op) (h : subscribeSucceeded ops (ChatWebSocketTester.new url, w) = false) :
    unsubscribe (runOps ops (ChatWebSocketTester.new url, w)).1
        (runOps ops (ChatWebSocketTester.new url, w)).2
      = runOps ops (ChatWebSocketTester.new url, w) := by
  have hs := tester_subscription_none ops (ChatWebSocketTester.new url, w) rfl h
  simp [unsubscribe, hs]

/-- C6 on a fresh tester, and on one that connected, called `subscribe` too
early (it failed), sent a message and disconnected. -/
theorem unsubscribe_before_subscribe_is_noop_witness :
    unsubscribe (ChatWebSocketTester.new none) World.empty
        = (ChatWebSocketTester.new none, World.empty)
      ∧ subscribeSucceeded
          [.connect, .subscribe (.index 1), .handshake 0, .sendMessage (.index 1) (lit "hi"),
            .disconnect] (ChatWebSocketTester.new none, World.empty) = false
      ∧ unsubscribe
          (runOps [.connect, .subscribe (.index 1), .handshake 0,
            .sendMessage (.index 1) (lit "hi"), .disconnect]
            (ChatWebSocketTester.new none, World.empty)).1
          (runOps [.connect, .subscribe (.index 1), .handshake 0,
            .sendMessage (.index 1) (lit "hi"), .disconnect]
            (ChatWebSocketTester.new none, World.empty)).2
        = runOps [.connect, .subscribe (.index 1), .handshake 0,
            .sendMessage (.index 1) (lit "hi"), .disconnect]
            (ChatWebSocketTester.new none, World.empty) :=
  ⟨unsubscribe_before_subscribe_is_noop none World.empty [] rfl, by decide,
    unsubscribe_before_subscribe_is_noop none World.empty _ (by decide)⟩

/-- C10: for every string `t`, `JSON.parse` of the body `sendMessage` makes
for the content `t` is the object whose one member `content` is `t`, reading
`content` from it gives `t`, and the handler run on that body logs `t` as the
content without raising; the same for `hello`. -/
theorem stringify_parse_round_trip (t : JSString) :
    JSON_parse (stringifyContent t) = some (.obj (.cons (lit "content") (.str t) .nil))
      ∧ readProperty (.obj (.cons (lit "content") (.str t) .nil)) (lit "content")
        = some (.str t)
      ∧ messageHandler (stringifyContent t) =
        ⟨[receivedLine (.obj (.cons (lit "content") (.str t) .nil)), fromLine none,
          contentLine (some (.str t)), timeLine none], none⟩
      ∧ JSON_parse (stringifyContent (lit "hello"))
        = some (.obj (.cons (lit "content") (.str (lit "hello")) .nil)) := by
  have hsn : ¬ lit "content" = lit "senderName" := by decide
  have hts : ¬ lit "content" = lit "timestamp" := by decide
  refine ⟨JSON_parse_stringifyContent t, ?_, ?_, JSON_parse_stringifyContent _⟩
  · simp [readProperty, JSONFields.get]
  · simp [messageHandler, JSON_parse_stringifyContent, readProperty, JSONFields.get, hsn, hts,
      valueThrows, JSON.conversionThrows]

/-- C7, as stated, fails: on the body `oops` the handler raises the
`SyntaxError` of `JSON.parse` and reports nothing, so that the exception
leaves the callback when the frame is delivered; on an object without
`content` it raises nothing and logs only at level `log`, the content being
`undefined`. -/
theorem handler_malformed_counterexample :
    messageHandler (lit "oops") = ⟨[], some .SyntaxError⟩
      ∧ (subscribedState.2.deliver (lit "/topic/channel/1") (lit "oops")).uncaught
        = [.SyntaxError]
      ∧ (subscribedState.2.deliver (lit "/topic/channel/1") (lit "oops")).console
        = subscribedState.2.console
      ∧ messageHandler (lit "\x7b\"senderName\":\"a\",\"timestamp\":1\x7d") =
        ⟨[receivedLine (.obj (.cons (lit "senderName") (.str (lit "a"))
            (.cons (lit "timestamp") (.num (lit "1")) .nil))),
          fromLine (some (.str (lit "a"))), contentLine none,
          timeLine (some (.num (lit "1")))], none⟩ := by
  decide

/-- C7, amended: a body that `JSON.parse` rejects makes the handler raise
`SyntaxError` with no output; an object without `content` (whose `senderName`
and `timestamp` convert to a string) makes it log `undefined` as the content
and raise nothing; delivering a frame changes no subscription and no client,
so the same handlers receive the next frame; and a well-formed message is
logged with its sender, content and timestamp. -/
theorem handler_malformed_amended :
    (∀ body : JSString, JSON_parse body = none →
        messageHandler body = ⟨[], some .SyntaxError⟩)
      ∧ (∀ (body : JSString) (fs : JSONFields), JSON_parse body = some (.obj fs) →
        fs.get (lit "content") = none →
        valueThrows (fs.get (lit "senderName")) = false →
        valueThrows (fs.get (lit "timestamp")) = false →
        messageHandler body =
          ⟨[receivedLine (.obj fs), fromLine (fs.get (lit "senderName")), contentLine none,
            timeLine (fs.get (lit "timestamp"))], none⟩)
      ∧ (∀ (w : World) (destination bad : JSString),
        (w.deliver destination bad).subscriptions = w.subscriptions
          ∧ (w.deliver destination bad).clients = w.clients
          ∧ ∀ d, (w.deliver destination bad).receivers d = w.receivers d)
      ∧ (∀ (good : JSString) (fs : JSONFields) (s c ts : JSString),
        JSON_parse good = some (.obj fs) →
        fs.get (lit "senderName") = some (.str s) →
        fs.get (lit "content") = some (.str c) →
        fs.get (lit "timestamp") = some (.num ts) →
        messageHandler good =
            ⟨[receivedLine (.obj fs), fromLine (some (.str s)), contentLine (some (.str c)),
              timeLine (some (.num ts))], none⟩
          ∧ ∀ (w : World) (destination bad : JSString),
            ((w.deliver destination bad).deliver destination good).console =
              (w.deliver destination bad).console ++
                (w.receivers destination).flatMap fun _ =>
                  [receivedLine (.obj fs), fromLine (some (.str s)),
                    contentLine (some (.str c)), timeLine (some (.num ts))]) := by
  have hrec : ∀ (w : World) (destination bad d : JSString),
      (w.deliver destination bad).receivers d = w.receivers d := by
    intro w destination bad d
    rw [deliver_eq]
    rfl
  refine ⟨?_, ?_, ?_, ?_⟩
  · intro body h
    simp [messageHandler, h]
  · intro body fs h hc hs ht
    have hn : valueThrows none = false := rfl
    simp [messageHandler, h, readProperty, hc, hs, ht, hn]
  · intro w destination bad
    refine ⟨?_, ?_, hrec w destination bad⟩ <;> rw [deliver_eq]
  · intro good fs s c ts h hs hc ht
    have hm : messageHandler good =
        ⟨[receivedLine (.obj fs), fromLine (some (.str s)), contentLine (some (.str c)),
          timeLine (some (.num ts))], none⟩ := by
      simp [messageHandler, h, readProperty, hc, hs, ht, valueThrows, JSON.conversionThrows]
    refine ⟨hm, ?_⟩
    intro w destination bad
    rw [deliver_eq (w.deliver destination bad), hrec, hm]

/-- C7 amended, on the subscribed sample tester: the frame `oops` and then a
well-formed message from `a` with the content `hi`. -/
theorem handler_malformed_amended_witness :
    messageHandler (lit "oops") = ⟨[], some .SyntaxError⟩
      ∧ (messageHandler (lit "\x7b\"senderName\":\"a\",\"timestamp\":1\x7d")).raised = none
      ∧ (subscribedState.2.deliver (lit "/topic/channel/1") (lit "oops")).receivers
          (lit "/topic/channel/1") = subscribedState.2.receivers (lit "/topic/channel/1")
      ∧ (messageHandler
          (lit "\x7b\"senderName\":\"a\",\"content\":\"hi\",\"timestamp\":1\x7d")).out
        = [receivedLine (.obj (.cons (lit "senderName") (.str (lit "a"))
              (.cons (lit "content") (.str (lit "hi"))
                (.cons (lit "timestamp") (.num (lit "1")) .nil)))),
            fromLine (some (.str (lit "a"))), contentLine (some (.str (lit "hi"))),
            timeLine (some (.num (lit "1")))] :=
  ⟨handler_malformed_amended.1 (lit "oops") (by decide),
    congrArg Run.raised (handler_malformed_amended.2.1
      (lit "\x7b\"senderName\":\"a\",\"timestamp\":1\x7d")
      (.cons (lit "senderName") (.str (lit "a")) (.cons (lit "timestamp") (.num (lit "1")) .nil))
      (by decide) (by decide) (by decide) (by decide)),
    (handler_malformed_amended.2.2.1 subscribedState.2 (lit "/topic/channel/1")
      (lit "oops")).2.2 _,
    congrArg Run.out (handler_malformed_amended.2.2.2
      (lit "\x7b\"senderName\":\"a\",\"content\":\"hi\",\"timestamp\":1\x7d")
      (.cons (lit "senderName") (.str (lit "a")) (.cons (lit "content") (.str (lit "hi"))
        (.cons (lit "timestamp") (.num (lit "1")) .nil)))
      (lit "a") (lit "hi") (lit "1") (by decide) (by decide) (by decide) (by decide)).1⟩

/-- C2, as stated, fails: after `connect()`, a successful handshake,
`subscribe(1)` and `subscribe(2)`, two subscriptions are live on the
transport, no unsubscribe call was made, and the handler of the first still
receives the frames of `/topic/channel/1`, while the tester only remembers the
second. -/
theorem subscribe_twice_counterexample :
    (runOps [.connect, .handshake 0, .subscribe (.index 1), .subscribe (.index 2)]
        (ChatWebSocketTester.new none, World.empty)).2.liveHandles = [0, 1]
      ∧ (runOps [.connect, .handshake 0, .subscribe (.index 1), .subscribe (.index 2)]
        (ChatWebSocketTester.new none, World.empty)).2.receivers (lit "/topic/channel/1") = [0]
      ∧ (runOps [.connect, .handshake 0, .subscribe (.index 1), .subscribe (.index 2)]
        (ChatWebSocketTester.new none, World.empty)).2.calls =
          [.construct 0 ⟨lit "ws://localhost:8080/ws/chat", 5000, 4000, 4000⟩, .activate 0,
            .subscribe 0 (lit "/topic/channel/1") 0, .subscribe 0 (lit "/topic/channel/2") 1]
      ∧ (runOps [.connect, .handshake 0, .subscribe (.index 1), .subscribe (.index 2)]
        (ChatWebSocketTester.new none, World.empty)).1.subscription = some 1 := by
  decide

/-- C2, amended: on a connected tester `subscribe(c1)` and then
`subscribe(c2)` register two subscriptions and make no other transport call;
the tester's `subscription` field holds the handle of the second only, both
subscriptions are live, and the handler of each receives the frames of its own
destination. -/
theorem subscribe_twice_amended (c1 c2 : ChannelId) (t : ChatWebSocketTester) (w : World)
    (id : Nat) (hc : t.client = some id) (hconn : w.connected id = true) :
    (subscribe c2 (subscribe c1 t w).1 (subscribe c1 t w).2).1
        = { t with subscription := some (w.subscriptions.length + 1) }
      ∧ (subscribe c2 (subscribe c1 t w).1 (subscribe c1 t w).2).2.subscriptions
        = w.subscriptions ++
          [⟨id, lit "/topic/channel/" ++ c1.toJSString, true⟩,
            ⟨id, lit "/topic/channel/" ++ c2.toJSString, true⟩]
      ∧ (subscribe c2 (subscribe c1 t w).1 (subscribe c1 t w).2).2.calls
        = w.calls ++
          [.subscribe id (lit "/topic/channel/" ++ c1.toJSString) w.subscriptions.length,
            .subscribe id (lit "/topic/channel/" ++ c2.toJSString) (w.subscriptions.length + 1)]
      ∧ w.subscriptions.length
        ∈ (subscribe c2 (subscribe c1 t w).1 (subscribe c1 t w).2).2.liveHandles
      ∧ w.subscriptions.length + 1
        ∈ (subscribe c2 (subscribe c1 t w).1 (subscribe c1 t w).2).2.liveHandles
      ∧ w.subscriptions.length
        ∈ (subscribe c2 (subscribe c1 t w).1 (subscribe c1 t w).2).2.receivers
          (lit "/topic/channel/" ++ c1.toJSString)
      ∧ w.subscriptions.length + 1
        ∈ (subscribe c2 (subscribe c1 t w).1 (subscribe c1 t w).2).2.receivers
          (lit "/topic/channel/" ++ c2.toJSString) := by
  have h1 := subscribe_connected c1 t w id hc hconn
  have hconn1 : (subscribe c1 t w).2.connected id = true := by
    rw [h1]; exact hconn
  have hc1 : (subscribe c1 t w).1.client = some id := by
    rw [h1]; exact hc
  have h2 := subscribe_connected c2 _ _ id hc1 hconn1
  have hcl : (subscribe c2 (subscribe c1 t w).1 (subscribe c1 t w).2).2.connected id = true := by
    rw [h2]; exact hconn1
  have hsub : (subscribe c2 (subscribe c1 t w).1 (subscribe c1 t w).2).2.subscriptions
      = w.subscriptions ++
        [⟨id, lit "/topic/channel/" ++ c1.toJSString, true⟩,
          ⟨id, lit "/topic/channel/" ++ c2.toJSString, true⟩] := by
    rw [h2, h1]; simp [subscribeDestination]
  have g1 := get?_append_pair_fst w.subscriptions
    (⟨id, lit "/topic/channel/" ++ c1.toJSString, true⟩ : StompSubscription)
    ⟨id, lit "/topic/channel/" ++ c2.toJSString, true⟩
  have g2 := get?_append_pair_snd w.subscriptions
    (⟨id, lit "/topic/channel/" ++ c1.toJSString, true⟩ : StompSubscription)
    ⟨id, lit "/topic/channel/" ++ c2.toJSString, true⟩
  refine ⟨?_, hsub, ?_, ?_, ?_, ?_, ?_⟩
  · rw [h2, h1]; simp
  · rw [h2, h1]; simp [subscribeDestination]
  · simp only [World.liveHandles, World.isLive, List.mem_filter, List.mem_range, hsub, g1]
    simp
  · simp only [World.liveHandles, World.isLive, List.mem_filter, List.mem_range, hsub, g2]
    simp
  · simp only [World.receivers, List.mem_filter, List.mem_range, hsub, g1, hcl]
    simp
  · simp only [World.receivers, List.mem_filter, List.mem_range, hsub, g2, hcl]
    simp

/-- C2 amended, on the connected sample tester with the channels 1 and 2. -/
theorem subscribe_twice_amended_witness :
    connectedState.1.client = some 0 ∧ connectedState.2.connected 0 = true
      ∧ (subscribe (.index 2) (subscribe (.index 1) connectedState.1 connectedState.2).1
          (subscribe (.index 1) connectedState.1 connectedState.2).2).2.subscriptions
        = [⟨0, lit "/topic/channel/1", true⟩, ⟨0, lit "/topic/channel/2", true⟩] :=
  ⟨by decide, by decide,
    (subscribe_twice_amended (.index 1) (.index 2) connectedState.1 connectedState.2 0
      (by decide) (by decide)).2.1.trans (by decide)⟩

/-- C5, as stated, fails: after `subscribe(1)` and `unsubscribe()` the
`subscription` field still holds the handle, and a second `unsubscribe()`
makes one more unsubscribe call on it. -/
theorem unsubscribe_counterexample :
    (runOps [.connect, .handshake 0, .subscribe (.index 1), .unsubscribe]
        (ChatWebSocketTester.new none, World.empty)).1.subscription = some 0
      ∧ (runOps [.connect, .handshake 0, .subscribe (.index 1), .unsubscribe, .unsubscribe]
        (ChatWebSocketTester.new none, World.empty)).2.calls =
          (runOps [.connect, .handshake 0, .subscribe (.index 1), .unsubscribe]
            (ChatWebSocketTester.new none, World.empty)).2.calls ++ [.unsubscribe 0] := by
  decide

/-- C5, amended: when a subscription is stored, `unsubscribe()` makes exactly
one unsubscribe call on its handle, after which it is not live, and keeps the
stored reference; a second `unsubscribe()` makes one more unsubscribe call on
the same handle and changes neither the tester nor the transport's
subscriptions and clients. -/
theorem unsubscribe_amended (t : ChatWebSocketTester) (w : World) (handle : Nat)
    (hs : t.subscription = some handle) :
    (unsubscribe t w).1 = t
      ∧ (unsubscribe t w).2.calls = w.calls ++ [.unsubscribe handle]
      ∧ (unsubscribe t w).2.isLive handle = false
      ∧ (unsubscribe t w).2.clients = w.clients
      ∧ (unsubscribe (unsubscribe t w).1 (unsubscribe t w).2).1 = t
      ∧ (unsubscribe (unsubscribe t w).1 (unsubscribe t w).2).2.calls
        = w.calls ++ [.unsubscribe handle, .unsubscribe handle]
      ∧ (unsubscribe (unsubscribe t w).1 (unsubscribe t w).2).2.subscriptions
        = (unsubscribe t w).2.subscriptions
      ∧ (unsubscribe (unsubscribe t w).1 (unsubscribe t w).2).2.clients = w.clients := by
  have h1 : unsubscribe t w = (t, (w.unsubscribeHandle handle).print ⟨.log, "Unsubscribed", []⟩) := by
    simp [unsubscribe, hs]
  have h2 : unsubscribe t ((w.unsubscribeHandle handle).print ⟨.log, "Unsubscribed", []⟩)
      = (t, ((((w.unsubscribeHandle handle).print ⟨.log, "Unsubscribed", []⟩).unsubscribeHandle
          handle).print ⟨.log, "Unsubscribed", []⟩)) := by
    simp [unsubscribe, hs]
  refine ⟨?_, ?_, ?_, ?_, ?_, ?_, ?_, ?_⟩
  · rw [h1]
  · rw [h1]; rfl
  · rw [h1]
    simp only [World.isLive, World.print, World.unsubscribeHandle, get?_updateAt_same]
    cases w.subscriptions.get? handle <;> rfl
  · rw [h1]; rfl
  · rw [h1]; simp only [h2]
  · rw [h1]; simp only [h2]
    simp [World.print, World.unsubscribeHandle]
  · rw [h1]; simp only [h2]
    simp only [World.print, World.unsubscribeHandle]
    exact updateAt_idem (fun s : StompSubscription => { s with live := false })
      (fun _ => rfl) _ _
  · rw [h1]; simp only [h2]
    rfl

/-- C5 amended, on the subscribed sample tester. -/
theorem unsubscribe_amended_witness :
    subscribedState.1.subscription = some 0
      ∧ (unsubscribe subscribedState.1 subscribedState.2).1.subscription = some 0
      ∧ (unsubscribe subscribedState.1 subscribedState.2).2.isLive 0 = false :=
  ⟨by decide,
    (congrArg ChatWebSocketTester.subscription
      (unsubscribe_amended subscribedState.1 subscribedState.2 0 (by decide)).1).trans
      (by decide),
    (unsubscribe_amended subscribedState.1 subscribedState.2 0 (by decide)).2.2.1⟩

/-- C8, as stated, fails: a second `connect()` on a tester whose client is
connecting (or connected) is no no-op and reports no error: a second client is
constructed and activated and replaces the first in the `client` field, while
the first keeps its status. -/
theorem connect_twice_counterexample :
    (runOps [.connect, .connect] (ChatWebSocketTester.new none, World.empty)).2.calls =
        [.construct 0 ⟨lit "ws://localhost:8080/ws/chat", 5000, 4000, 4000⟩, .activate 0,
          .construct 1 ⟨lit "ws://localhost:8080/ws/chat", 5000, 4000, 4000⟩, .activate 1]
      ∧ (runOps [.connect, .connect] (ChatWebSocketTester.new none, World.empty)).1.client
        = some 1
      ∧ (runOps [.connect, .connect] (ChatWebSocketTester.new none, World.empty)).2.status 0
        = some .Connecting
      ∧ (runOps [.connect, .connect] (ChatWebSocketTester.new none, World.empty)).2.status 1
        = some .Connecting
      ∧ (runOps [.connect, .connect] (ChatWebSocketTester.new none, World.empty)).2.uncaught
        = []
      ∧ (runOps [.connect, .connect]
          (ChatWebSocketTester.new none, World.empty)).2.console.all
          (fun e => decide (e.level = .log)) = true
      ∧ (runOps [.connect, .handshake 0, .connect]
          (ChatWebSocketTester.new none, World.empty)).2.status 0 = some .Connected
      ∧ (runOps [.connect, .handshake 0, .connect]
          (ChatWebSocketTester.new none, World.empty)).2.status 1 = some .Connecting := by
  decide

/-- C8, amended: `connect()` on a tester that holds a connecting or connected
client constructs a new client with the tester's url and activates it, stores
it in the `client` field in place of the first, makes no call on the first,
whose status stays as it was, and raises nothing. -/
theorem connect_twice_amended (t : ChatWebSocketTester) (w : World) (id : Nat)
    (hc : t.client = some id)
    (hst : w.status id = some .Connecting ∨ w.status id = some .Connected) :
    (connect t w).1 = { t with client := some w.clients.length }
      ∧ (connect t w).1.client ≠ t.client
      ∧ (connect t w).2.calls = w.calls ++
          [.construct w.clients.length ⟨t.url, 5000, 4000, 4000⟩, .activate w.clients.length]
      ∧ (connect t w).2.status id = w.status id
      ∧ (connect t w).2.status w.clients.length = some .Connecting
      ∧ (connect t w).2.subscriptions = w.subscriptions
      ∧ (connect t w).2.uncaught = w.uncaught
      ∧ (connect t w).2.console
        = w.console ++ [⟨.log, "🔌 Connecting to:", [some (.str t.url)]⟩] := by
  have hlt : id < w.clients.length := by
    rcases hst with h | h <;> exact status_some_lt w id _ h
  have hne : id ≠ w.clients.length := by omega
  have hnew : (connect t w).1.client ≠ t.client := by
    rw [hc]
    show some w.clients.length ≠ some id
    intro h
    injection h with h
    omega
  refine ⟨rfl, hnew, ?_, ?_, ?_, rfl, rfl, rfl⟩
  · simp [connect, World.print, World.newClient, World.setCallbacks, World.activate]
  · simp only [connect, World.print, World.newClient, World.setCallbacks, World.activate,
      World.status]
    rw [get?_updateAt_other _ _ _ _ hne, get?_updateAt_other _ _ _ _ hne]
    simp only [List.get?_eq_getElem?]
    rw [List.getElem?_append_left hlt]
  · simp only [connect, World.print, World.newClient, World.setCallbacks, World.activate,
      World.status]
    rw [get?_updateAt_same, get?_updateAt_same]
    simp

/-- C8 amended, on the connecting sample tester. -/
theorem connect_twice_amended_witness :
    connectingState.1.client = some 0 ∧ connectingState.2.status 0 = some .Connecting
      ∧ (connect connectingState.1 connectingState.2).1.client = some 1
      ∧ (connect connectingState.1 connectingState.2).2.status 0 = some .Connecting :=
  ⟨by decide, by decide,
    (congrArg ChatWebSocketTester.client
      (connect_twice_amended connectingState.1 connectingState.2 0 (by decide)
        (Or.inl (by decide))).1).trans (by decide),
    (connect_twice_amended connectingState.1 connectingState.2 0 (by decide)
      (Or.inl (by decide))).2.2.2.1.trans (by decide)⟩

/-- C9, as stated, fails: on the connected sample tester a second
`disconnect()` makes a second deactivate call, so it has an effect that one
call does not have. -/
theorem disconnect_twice_counterexample :
    (runOps [.connect, .handshake 0, .disconnect, .disconnect]
        (ChatWebSocketTester.new none, World.empty)).2.calls =
        (runOps [.connect, .handshake 0, .disconnect]
          (ChatWebSocketTester.new none, World.empty)).2.calls ++ [.deactivate 0]
      ∧ (runOps [.connect, .handshake 0, .disconnect, .disconnect]
        (ChatWebSocketTester.new none, World.empty)).2 ≠
        (runOps [.connect, .handshake 0, .disconnect]
          (ChatWebSocketTester.new none, World.empty)).2
      ∧ (runOps [.connect, .handshake 0, .disconnect]
        (ChatWebSocketTester.new none, World.empty)).1.client = some 0 := by
  decide

/-- C9, amended: `disconnect()` on a tester without client changes nothing;
on a tester with a client it makes one deactivate call, the status of the
client becomes Disconnected and the `client` field is kept; a second
`disconnect()` leaves the tester, the clients and the subscriptions as after
the first, and makes one more deactivate call on the same client. -/
theorem disconnect_amended :
    (∀ (t : ChatWebSocketTester) (w : World), t.client = none → disconnect t w = (t, w))
      ∧ (∀ (t : ChatWebSocketTester) (w : World) (id : Nat) (st : Status),
        t.client = some id → w.status id = some st →
        (disconnect t w).1 = t
          ∧ (disconnect t w).2.calls = w.calls ++ [.deactivate id]
          ∧ (disconnect t w).2.status id = some .Disconnected
          ∧ (disconnect t w).2.subscriptions = w.subscriptions
          ∧ (disconnect (disconnect t w).1 (disconnect t w).2).1 = t
          ∧ (disconnect (disconnect t w).1 (disconnect t w).2).2.clients
            = (disconnect t w).2.clients
          ∧ (disconnect (disconnect t w).1 (disconnect t w).2).2.subscriptions
            = w.subscriptions
          ∧ (disconnect (disconnect t w).1 (disconnect t w).2).2.calls
            = w.calls ++ [.deactivate id, .deactivate id]) := by
  refine ⟨?_, ?_⟩
  · intro t w h
    simp [disconnect, h]
  · intro t w id st hc hst
    have h1 : ∀ w1 : World,
        disconnect t w1 = (t, (w1.deactivate id).print ⟨.log, "Disconnected", []⟩) := by
      intro w1
      simp [disconnect, hc]
    refine ⟨?_, ?_, ?_, ?_, ?_, ?_, ?_, ?_⟩
    · rw [h1]
    · rw [h1]; rfl
    · rw [h1]
      simp only [World.status, World.print, World.deactivate, get?_updateAt_same]
      simp only [World.status] at hst
      cases hget : w.clients.get? id with
      | none =>
        rw [hget] at hst
        cases hst
      | some c => rfl
    · rw [h1]; rfl
    · rw [h1]; simp only [h1]
    · rw [h1]; simp only [h1]
      simp only [World.print, World.deactivate]
      exact updateAt_idem (fun c : StompClient => { c with status := .Disconnected })
        (fun _ => rfl) _ _
    · rw [h1]; simp only [h1]
      rfl
    · rw [h1]; simp only [h1]
      simp [World.print, World.deactivate]

/-- C9 amended, on a fresh tester and on the connected sample tester. -/
theorem disconnect_amended_witness :
    disconnect (ChatWebSocketTester.new none) World.empty
        = (ChatWebSocketTester.new none, World.empty)
      ∧ connectedState.2.status 0 = some .Connected
      ∧ (disconnect connectedState.1 connectedState.2).2.status 0 = some .Disconnected
      ∧ (disconnect (disconnect connectedState.1 connectedState.2).1
          (disconnect connectedState.1 connectedState.2).2).2.calls
        = connectedState.2.calls ++ [.deactivate 0, .deactivate 0] :=
  ⟨disconnect_amended.1 _ _ rfl, by decide,
    (disconnect_amended.2 connectedState.1 connectedState.2 0 .Connected (by decide)
      (by decide)).2.2.1,
    (disconnect_amended.2 connectedState.1 connectedState.2 0 .Connected (by decide)
      (by decide)).2.2.2.2.2.2.2⟩

end DockFlow
